import Mathlib

/-!
Verification of the IPC transport/framing/handshake layer of the
`discord-presence-rs` repository (`src/discord_connection.rs`,
`src/error.rs`) against its natural-language specification.

The Rust code is shallowly embedded: byte streams are `List Nat` (each
element a byte value), machine integers are `Nat` with explicit `% 2^32`
where the 32-bit width matters, fallible operations return `Except`, and
the externally supplied JSON (de)serializer (`serde_json`) is an abstract
parameter. Stateful `Client` methods become explicit state passing over a
record of the bytes/frames written and the bytes available to read.
-/

namespace DiscordPresence

/-- The error enum of `src/error.rs`. `Io` and `Json` carry the message of
the wrapped `std::io::Error` / `serde_json::Error`; `From` conversions in
the source map an I/O failure to `Io` and a serde failure to `Json`. -/
inductive Err where
  | io (m : String)
  | json (m : String)
  | connectionNotFound
  | handshakeFailed
deriving DecidableEq

/-- Little-endian 4-byte encoding of a `u32`, as produced by
`u32::to_le_bytes` in `write_ipc`. Only the low 32 bits of `n` appear in
the four bytes, which is exactly the effect of Rust's truncating
`as u32` cast applied before serialization. -/
def toLE32 (n : Nat) : List Nat :=
  [n % 256, n / 2 ^ 8 % 256, n / 2 ^ 16 % 256, n / 2 ^ 24 % 256]

/-- `u32::from_le_bytes` on a 4-byte buffer, as used by `read_ipc` for the
length field. -/
def fromLE32 (b : List Nat) : Nat :=
  match b with
  | [b0, b1, b2, b3] => b0 + b1 * 2 ^ 8 + b2 * 2 ^ 16 + b3 * 2 ^ 24
  | _ => 0

/-- `Client::write_ipc` (discord_connection.rs lines 164-172): emits the
opcode as 4 LE bytes, then `payload_bytes.len() as u32` as 4 LE bytes
(the cast truncates to the low 32 bits), then the payload bytes. The
Rust payload is a `String`; it is modeled here by its UTF-8 bytes. -/
def write_ipc (opcode : Nat) (payload : List Nat) : List Nat :=
  toLE32 opcode ++ toLE32 payload.length ++ payload

/-- `Read::read_exact` on a finite byte stream: consume exactly `n` bytes
or fail with the I/O error an early end of stream produces. Returns the
bytes read and the rest of the stream. -/
def readExact (n : Nat) (s : List Nat) : Except Err (List Nat × List Nat) :=
  if n ≤ s.length then .ok (s.take n, s.drop n)
  else .error (.io "failed to fill whole buffer")

/-- `Client::read_ipc` (discord_connection.rs lines 175-187): reads 4
opcode bytes into `opcode_buf` (never used afterwards - the opcode is
discarded), 4 length bytes, then exactly `len` payload bytes. Returns the
payload bytes and the unconsumed remainder of the stream. The final
`String::from_utf8_lossy` is the identity on the valid-UTF-8 byte
sequences `write_ipc` produces, so payloads stay at the byte level. -/
def read_ipc (s : List Nat) : Except Err (List Nat × List Nat) :=
  match readExact 4 s with
  | .error e => .error e
  | .ok (_opcode_buf, s1) =>
    match readExact 4 s1 with
    | .error e => .error e
    | .ok (len_buf, s2) =>
      match readExact (fromLE32 len_buf) s2 with
      | .error e => .error e
      | .ok (payload_buf, s3) => .ok (payload_buf, s3)

theorem toLE32_length (n : Nat) : (toLE32 n).length = 4 := rfl

theorem fromLE32_toLE32 (n : Nat) : fromLE32 (toLE32 n) = n % 2 ^ 32 := by
  simp only [toLE32, fromLE32]
  omega

theorem readExact_append (l r : List Nat) :
    readExact l.length (l ++ r) = .ok (l, r) := by
  simp [readExact]

theorem readExact_four (n : Nat) (r : List Nat) :
    readExact 4 (toLE32 n ++ r) = .ok (toLE32 n, r) :=
  readExact_append (toLE32 n) r

/-- Shared round-trip lemma: decoding the bytes encoded from
`(opcode, payload)` consumes the whole frame and yields the payload (the
opcode bytes are read but discarded), provided the payload length fits in
the 32-bit length field. -/
theorem read_write_round (opcode : Nat) (payload : List Nat)
    (h : payload.length < 2 ^ 32) :
    read_ipc (write_ipc opcode payload) = .ok (payload, []) := by
  unfold write_ipc read_ipc
  rw [List.append_assoc, readExact_four]
  simp only
  rw [readExact_four]
  simp only [fromLE32_toLE32, Nat.mod_eq_of_lt h]
  have : readExact payload.length payload = .ok (payload, []) := by
    simpa using readExact_append payload []
  rw [this]

/-- JSON values as manipulated through `serde_json::Value` (null, bool,
number, string, array, object of key/value fields). -/
inductive Json where
  | null
  | bool (b : Bool)
  | num (n : Int)
  | str (s : String)
  | arr (xs : List Json)
  | obj (fields : List (String × Json))

/-- First-match lookup in an object's field list; `serde_json`'s map has
unique keys, so first-match agrees with it. Missing key yields null. -/
def jLookup (key : String) : List (String × Json) → Json
  | [] => .null
  | (k, v) :: rest => if k = key then v else jLookup key rest

/-- Indexing `value[key]` on a `serde_json::Value`: field lookup on an
object, `Value::Null` when the key is absent or the value is not an
object. -/
def jGet (j : Json) (key : String) : Json :=
  match j with
  | .obj fields => jLookup key fields
  | _ => .null

/-- `Value::as_str`: `Some` exactly on JSON strings. -/
def Json.asStr : Json → Option String
  | .str s => some s
  | _ => none

/-- The acceptance test of `Client::handshake` (lines 140-142):
`response_data["cmd"].as_str() == Some("DISPATCH") &&
response_data["evt"].as_str() == Some("READY")`. -/
def handshakeAccepts (v : Json) : Bool :=
  decide ((jGet v "cmd").asStr = some "DISPATCH") &&
    decide ((jGet v "evt").asStr = some "READY")

/-- The response-processing half of `Client::handshake` (lines 137-146):
read one frame with `read_ipc` (an I/O failure propagates through `?` as
`Err.io`), parse its payload with `serde_json::from_str` - modeled as the
abstract parameter `parse`, whose failure the `?` plus the `From`
conversion in error.rs turns into `Err.json` - and accept iff the parsed
value has `cmd == "DISPATCH"` and `evt == "READY"`, otherwise fail with
`handshakeFailed`. -/
def handshake_read (parse : List Nat → Except String Json) (s : List Nat) :
    Except Err Unit :=
  match read_ipc s with
  | .error e => .error e
  | .ok (payload, _) =>
    match parse payload with
    | .error m => .error (.json m)
    | .ok v =>
      if handshakeAccepts v then .ok () else .error .handshakeFailed

/-- A frame payload as handed to `write_ipc` before UTF-8 serialization:
either a literal string (close passes `""`) or a JSON value still to be
rendered by `serde_json` (`payload.to_string()`). -/
inductive PayloadV where
  | str (s : String)
  | json (j : Json)

/-- The `Client` struct (lines 104-108) together with its transport's
observable history: the frames written so far (opcode plus pre-render
payload) and the bytes still unread. The struct has exactly the fields
`ipc` and `client_id`; in particular it keeps no closed/ready flag. -/
structure ClientM where
  client_id : String
  sent : List (Nat × PayloadV)
  recv : List Nat

/-- The JSON body built by `Client::set_activity` (lines 151-158):
`{"cmd": "SET_ACTIVITY", "args": {"pid": <pid>, "activity": <activity>},
"nonce": <nonce>}`. `pid` is `std::process::id()` and `nonce` is
`Uuid::new_v4().to_string()`, both read from the environment per call and
therefore taken as inputs here. -/
def setActivityPayload (pid : Nat) (activity : Json) (nonce : String) : Json :=
  Json.obj
    [("cmd", .str "SET_ACTIVITY"),
     ("args", .obj [("pid", .num (Int.ofNat pid)), ("activity", activity)]),
     ("nonce", .str nonce)]

/-- `Client::set_activity` (lines 150-161): serializes the payload and
writes it as one opcode-`1` frame via `write_ipc`; reads nothing; returns
`Ok(())` when the transport accepts the write (the modeled transport is an
open handle that accepts writes). -/
def set_activity (c : ClientM) (pid : Nat) (activity : Json) (nonce : String) :
    Except Err Unit × ClientM :=
  (.ok (),
   { c with sent := c.sent ++ [(1, .json (setActivityPayload pid activity nonce))] })

/-- `Client::close` (lines 190-193): writes one opcode-`2` frame with the
empty-string payload via `write_ipc` and returns `Ok(())`. It neither
reads a response, nor closes the OS handle, nor records any state on the
`Client`. -/
def close (c : ClientM) : Except Err Unit × ClientM :=
  (.ok (), { c with sent := c.sent ++ [(2, .str "")] })

/-- The filesystem/socket environment `UnixIpc::connect` interacts with:
for candidate index `i`, whether `{base}/discord-ipc-{i}` exists, and the
outcome of `UnixStream::connect` on that path (error carries the
`std::io::Error` message, e.g. permission denied). -/
structure UnixFs where
  pathExists : Nat → Bool
  connect : Nat → Except String Unit

/-- The loop body of `UnixIpc::connect` (lines 28-35), iterating from
index `i` with `fuel` iterations left. If the candidate path exists, the
stream is connected: success returns `Ok` at that index, and a connect
failure propagates through `?` as an `Err.io` - the loop does not
continue. If the path does not exist the next index is tried. Returns the
result together with the list of candidate indices examined, in order.
Falling off the loop yields `connectionNotFound`. -/
def unixTry (fs : UnixFs) : Nat → Nat → Except Err Nat × List Nat
  | _, 0 => (.error .connectionNotFound, [])
  | i, fuel + 1 =>
    if fs.pathExists i then
      match fs.connect i with
      | .ok _ => (.ok i, [i])
      | .error m => (.error (.io m), [i])
    else
      ((unixTry fs (i + 1) fuel).1, i :: (unixTry fs (i + 1) fuel).2)

/-- Outcome of `UnixIpc::connect` including the possibility of a panic
from the `.unwrap()` on the environment lookup. -/
inductive UnixConnect where
  | panicked
  | returns (r : Except Err Nat) (trace : List Nat)

/-- `UnixIpc::connect` (lines 22-36): base directory is
`env::var("XDG_RUNTIME_DIR").or_else(|_| env::var("TMPDIR"))`, and
`.unwrap()` panics when both lookups fail; otherwise the 10-candidate
loop runs. `fs` indexes candidates by `i`, modeling
`base.join(format!("discord-ipc-{i}"))` for the fixed base chosen. -/
def unix_connect (xdg tmpdir : Option String) (fs : UnixFs) : UnixConnect :=
  match xdg with
  | none =>
    match tmpdir with
    | none => .panicked
    | some _ => .returns (unixTry fs 0 10).1 (unixTry fs 0 10).2
  | some _ => .returns (unixTry fs 0 10).1 (unixTry fs 0 10).2

/-- The loop body of `WindowsIpc::connect` (lines 71-83), iterating from
index `i` with `fuel` iterations left: try to open
`\\.\pipe\discord-ipc-{i}` directly; on `Ok` return the handle at that
index, on `Err(_)` of any kind continue with the next index. Returns the
result and the list of candidate indices attempted, in order. -/
def winTry (openPipe : Nat → Except String Unit) :
    Nat → Nat → Except Err Nat × List Nat
  | _, 0 => (.error .connectionNotFound, [])
  | i, fuel + 1 =>
    match openPipe i with
    | .ok _ => (.ok i, [i])
    | .error _ =>
      ((winTry openPipe (i + 1) fuel).1, i :: (winTry openPipe (i + 1) fuel).2)

/-- `WindowsIpc::connect` (lines 70-83): the 10-candidate open loop. -/
def windows_connect (openPipe : Nat → Except String Unit) :
    Except Err Nat × List Nat :=
  winTry openPipe 0 10

theorem readExact_error (n : Nat) (s : List Nat) (e : Err)
    (h : readExact n s = .error e) : e = .io "failed to fill whole buffer" := by
  unfold readExact at h
  split at h
  · exact Except.noConfusion h
  · injection h with h'
    exact h'.symm

theorem read_ipc_error_io (s : List Nat) (e : Err)
    (h : read_ipc s = .error e) : e = .io "failed to fill whole buffer" := by
  unfold read_ipc at h
  split at h
  next e1 heq =>
    injection h with h2
    exact h2 ▸ readExact_error 4 s e1 heq
  next buf1 s1 heq1 =>
    split at h
    next e2 heq =>
      injection h with h2
      exact h2 ▸ readExact_error 4 s1 e2 heq
    next len_buf s2 heq2 =>
      split at h
      next e3 heq =>
        injection h with h2
        exact h2 ▸ readExact_error _ s2 e3 heq
      next pb s3 heq3 => exact Except.noConfusion h

theorem handshakeAccepts_iff (v : Json) :
    handshakeAccepts v = true ↔
      ((jGet v "cmd").asStr = some "DISPATCH" ∧
       (jGet v "evt").asStr = some "READY") := by
  simp [handshakeAccepts]

theorem unixTry_notExists (fs : UnixFs) (i fuel : Nat)
    (h : fs.pathExists i = false) :
    unixTry fs i (fuel + 1) =
      ((unixTry fs (i + 1) fuel).1, i :: (unixTry fs (i + 1) fuel).2) := by
  simp [unixTry, h]

theorem unixTry_skip (fs : UnixFs) (fuel : Nat) :
    ∀ k i, (∀ j, i ≤ j → j < i + k → fs.pathExists j = false) →
    unixTry fs i (k + fuel) =
      ((unixTry fs (i + k) fuel).1,
       List.range' i k ++ (unixTry fs (i + k) fuel).2) := by
  intro k
  induction k with
  | zero => intro i _; simp
  | succ k ih =>
    intro i h
    have hi : fs.pathExists i = false := h i le_rfl (by omega)
    have hstep : k + 1 + fuel = (k + fuel) + 1 := by omega
    rw [hstep, unixTry_notExists fs i _ hi,
        ih (i + 1) (fun j hj1 hj2 => h j (by omega) (by omega)),
        List.range'_succ]
    have harg : i + 1 + k = i + (k + 1) := by omega
    rw [harg]
    simp

theorem winTry_error (openPipe : Nat → Except String Unit) (i fuel : Nat)
    (m : String) (h : openPipe i = .error m) :
    winTry openPipe i (fuel + 1) =
      ((winTry openPipe (i + 1) fuel).1,
       i :: (winTry openPipe (i + 1) fuel).2) := by
  simp [winTry, h]

theorem winTry_skip (openPipe : Nat → Except String Unit) (fuel : Nat) :
    ∀ k i, (∀ j, i ≤ j → j < i + k → ∃ m, openPipe j = .error m) →
    winTry openPipe i (k + fuel) =
      ((winTry openPipe (i + k) fuel).1,
       List.range' i k ++ (winTry openPipe (i + k) fuel).2) := by
  intro k
  induction k with
  | zero => intro i _; simp
  | succ k ih =>
    intro i h
    obtain ⟨m, hm⟩ := h i le_rfl (by omega)
    have hstep : k + 1 + fuel = (k + fuel) + 1 := by omega
    rw [hstep, winTry_error openPipe i _ m hm,
        ih (i + 1) (fun j hj1 hj2 => h j (by omega) (by omega)),
        List.range'_succ]
    have harg : i + 1 + k = i + (k + 1) := by omega
    rw [harg]
    simp

theorem winTry_no_io (openPipe : Nat → Except String Unit) :
    ∀ fuel i m, (winTry openPipe i fuel).1 ≠ .error (.io m) := by
  intro fuel
  induction fuel with
  | zero => intro i m; simp [winTry]
  | succ fuel ih =>
    intro i m
    match hc : openPipe i with
    | .ok _ => simp [winTry, hc]
    | .error e => simpa [winTry, hc] using ih (i + 1) m

theorem unixTry_exhausted (fs : UnixFs)
    (h : ∀ i, i < 10 → fs.pathExists i = false) :
    unixTry fs 0 10 = (.error .connectionNotFound, List.range 10) := by
  have hs := unixTry_skip fs 0 10 0 (fun j _ hj2 => h j (by omega))
  have h0 : unixTry fs (0 + 10) 0 = (.error .connectionNotFound, []) := rfl
  rw [h0] at hs
  simpa [List.range_eq_range'] using hs

theorem winTry_exhausted (openPipe : Nat → Except String Unit)
    (h : ∀ i, i < 10 → ∃ m, openPipe i = .error m) :
    winTry openPipe 0 10 = (.error .connectionNotFound, List.range 10) := by
  have hs := winTry_skip openPipe 0 10 0 (fun j _ hj2 => h j (by omega))
  have h0 : winTry openPipe (0 + 10) 0 = (.error .connectionNotFound, []) := rfl
  rw [h0] at hs
  simpa [List.range_eq_range'] using hs

theorem unixTry_first (fs : UnixFs) (i : Nat) (hi : i < 10)
    (hbefore : ∀ j, j < i → fs.pathExists j = false)
    (hex : fs.pathExists i = true) (hok : fs.connect i = .ok ()) :
    unixTry fs 0 10 = (.ok i, List.range (i + 1)) := by
  have hstep : unixTry fs (0 + i) ((10 - i - 1) + 1) = (.ok i, [i]) := by
    simp [unixTry, hex, hok]
  have hs := unixTry_skip fs ((10 - i - 1) + 1) i 0
    (fun j _ hj2 => hbefore j (by omega))
  rw [hstep] at hs
  have harith : i + ((10 - i - 1) + 1) = 10 := by omega
  rw [harith] at hs
  rw [hs, ← List.range_eq_range', ← List.range_succ]

theorem winTry_first (openPipe : Nat → Except String Unit) (i : Nat)
    (hi : i < 10) (hbefore : ∀ j, j < i → ∃ m, openPipe j = .error m)
    (hok : openPipe i = .ok ()) :
    winTry openPipe 0 10 = (.ok i, List.range (i + 1)) := by
  have hstep : winTry openPipe (0 + i) ((10 - i - 1) + 1) = (.ok i, [i]) := by
    simp [winTry, hok]
  have hs := winTry_skip openPipe ((10 - i - 1) + 1) i 0
    (fun j _ hj2 => hbefore j (by omega))
  rw [hstep] at hs
  have harith : i + ((10 - i - 1) + 1) = 10 := by omega
  rw [harith] at hs
  rw [hs, ← List.range_eq_range', ← List.range_succ]

/-- C5 (amended): on the Windows pipe variant, every failed open - of any
kind - is folded into exhausting that candidate and the loop moves on to
the next index; the underlying I/O error is never surfaced to the caller.
On the Unix socket variant, however, a connection attempt on an existing
candidate path that fails is NOT folded: the I/O error is surfaced to the
caller immediately and no further candidate is attempted. -/
theorem c5_error_folding :
    (∀ (openPipe : Nat → Except String Unit) (fuel i : Nat) (m : String),
      (winTry openPipe i fuel).1 ≠ .error (.io m)) ∧
    (∀ (openPipe : Nat → Except String Unit) (i fuel : Nat) (m : String),
      openPipe i = .error m →
      winTry openPipe i (fuel + 1) =
        ((winTry openPipe (i + 1) fuel).1,
         i :: (winTry openPipe (i + 1) fuel).2)) ∧
    (∀ (fs : UnixFs) (i fuel : Nat) (m : String),
      fs.pathExists i = true → fs.connect i = .error m →
      unixTry fs i (fuel + 1) = (.error (.io m), [i])) :=
  ⟨fun openPipe fuel i m => winTry_no_io openPipe fuel i m,
   fun openPipe i fuel m h => winTry_error openPipe i fuel m h,
   fun fs i fuel m h1 h2 => by simp [unixTry, h1, h2]⟩

/-- C5 witness: a concrete run of each hypothesis-bearing part of
`c5_error_folding`: a pipe open failure at index 0 moves on to index 1,
and a Unix connect failure on an existing index-0 path surfaces the I/O
error with only candidate 0 examined. -/
theorem c5_error_folding_witness :
    winTry (fun _ => .error "Permission denied (os error 13)") 0 10 =
      ((winTry (fun _ => .error "Permission denied (os error 13)") 1 9).1,
       0 :: (winTry (fun _ => .error "Permission denied (os error 13)") 1 9).2) ∧
    unixTry ⟨fun i => i == 0, fun _ => .error "Permission denied (os error 13)"⟩
        0 10 =
      (.error (.io "Permission denied (os error 13)"), [0]) :=
  ⟨c5_error_folding.2.1 (fun _ => .error "Permission denied (os error 13)")
      0 9 "Permission denied (os error 13)" rfl,
   c5_error_folding.2.2
      ⟨fun i => i == 0, fun _ => .error "Permission denied (os error 13)"⟩
      0 9 "Permission denied (os error 13)" rfl rfl⟩

/-- C5 counterexample: with the index-0 socket path existing and the
connection attempt on it failing with a permission error, the Unix
`connect()` surfaces the underlying I/O error to the caller as its result
and stops after candidate 0, contradicting "treats that candidate as
exhausted and moves on to the next candidate; it never surfaces the
underlying I/O error to the caller". -/
theorem c5_counterexample :
    unix_connect (some "/run/user/1000") none
      ⟨fun i => i == 0, fun _ => .error "Permission denied (os error 13)"⟩ =
      .returns (.error (.io "Permission denied (os error 13)")) [0] := by
  simp [unix_connect, unixTry]

/-- C6: both `connect()` variants try candidate indices in ascending order
starting at 0 and return the first success without attempting any later
candidate: if every index before `i < 10` has no endpoint (path absent /
open fails) and index `i` connects, the result is index `i`, the examined
candidates are exactly `0..i`, and no index beyond `i` is ever
attempted. -/
theorem c6_candidate_ordering :
    (∀ (fs : UnixFs) (i : Nat), i < 10 →
      (∀ j, j < i → fs.pathExists j = false) →
      fs.pathExists i = true → fs.connect i = .ok () →
      unixTry fs 0 10 = (.ok i, List.range (i + 1)) ∧
        ∀ j, i < j → j ∉ (unixTry fs 0 10).2) ∧
    (∀ (openPipe : Nat → Except String Unit) (i : Nat), i < 10 →
      (∀ j, j < i → ∃ m, openPipe j = .error m) →
      openPipe i = .ok () →
      winTry openPipe 0 10 = (.ok i, List.range (i + 1)) ∧
        ∀ j, i < j → j ∉ (winTry openPipe 0 10).2) := by
  constructor
  · intro fs i hi hbefore hex hok
    have heq := unixTry_first fs i hi hbefore hex hok
    refine ⟨heq, fun j hj => ?_⟩
    rw [heq]
    simp only [List.mem_range]
    omega
  · intro openPipe i hi hbefore hok
    have heq := winTry_first openPipe i hi hbefore hok
    refine ⟨heq, fun j hj => ?_⟩
    rw [heq]
    simp only [List.mem_range]
    omega

/-- C6 witness: the spec's scenario - endpoints exist only at indices 3
and 7. On both variants the locator connects to index 3 having examined
exactly candidates 0,1,2,3, and index 7 is never attempted. -/
theorem c6_candidate_ordering_witness :
    unixTry ⟨fun i => i == 3 || i == 7, fun _ => .ok ()⟩ 0 10 =
      (.ok 3, List.range 4) ∧
    (7 : Nat) ∉ (unixTry ⟨fun i => i == 3 || i == 7, fun _ => .ok ()⟩ 0 10).2 ∧
    winTry (fun i => if i == 3 || i == 7 then .ok () else
        .error "No such file or directory (os error 2)") 0 10 =
      (.ok 3, List.range 4) ∧
    (7 : Nat) ∉ (winTry (fun i => if i == 3 || i == 7 then .ok () else
        .error "No such file or directory (os error 2)") 0 10).2 := by
  have hu := c6_candidate_ordering.1
    ⟨fun i => i == 3 || i == 7, fun _ => .ok ()⟩ 3 (by omega)
    (fun j hj => by interval_cases j <;> rfl) rfl rfl
  have hw := c6_candidate_ordering.2
    (fun i => if i == 3 || i == 7 then .ok () else
        .error "No such file or directory (os error 2)") 3 (by omega)
    (fun j hj => ⟨"No such file or directory (os error 2)",
        by interval_cases j <;> rfl⟩) rfl
  exact ⟨hu.1, hu.2 7 (by omega), hw.1, hw.2 7 (by omega)⟩

/-- C7: when no candidate endpoint at indices 0..9 can be connected (Unix:
no candidate path exists; Windows: every open fails), `connect()` fails
with `ConnectionNotFound`, the examined candidates being exactly the ten
indices 0..9. -/
theorem c7_exhaustion :
    (∀ (xdg tmpdir : Option String) (fs : UnixFs),
      xdg.isSome = true ∨ tmpdir.isSome = true →
      (∀ i, i < 10 → fs.pathExists i = false) →
      unix_connect xdg tmpdir fs =
        .returns (.error .connectionNotFound) (List.range 10)) ∧
    (∀ openPipe : Nat → Except String Unit,
      (∀ i, i < 10 → ∃ m, openPipe i = .error m) →
      windows_connect openPipe =
        (.error .connectionNotFound, List.range 10)) ∧
    (List.range 10).length = 10 := by
  refine ⟨?_, ?_, by simp⟩
  · intro xdg tmpdir fs henv h
    have heq := unixTry_exhausted fs h
    match xdg, tmpdir, henv with
    | some _, _, _ => simp [unix_connect, heq]
    | none, some _, _ => simp [unix_connect, heq]
    | none, none, henv => simp at henv
  · intro openPipe h
    have heq := winTry_exhausted openPipe h
    simp [windows_connect, heq]

/-- C7 witness: with no socket path existing (Unix) and every pipe open
failing (Windows), both `connect()` variants return `ConnectionNotFound`
after examining exactly the candidates 0..9. -/
theorem c7_exhaustion_witness :
    unix_connect (some "/tmp") none ⟨fun _ => false, fun _ => .ok ()⟩ =
      .returns (.error .connectionNotFound) (List.range 10) ∧
    windows_connect (fun _ => .error "No such file or directory (os error 2)") =
      (.error .connectionNotFound, List.range 10) :=
  ⟨c7_exhaustion.1 (some "/tmp") none ⟨fun _ => false, fun _ => .ok ()⟩
      (Or.inl rfl) (fun _ _ => rfl),
   c7_exhaustion.2.1 (fun _ => .error "No such file or directory (os error 2)")
      (fun _ _ => ⟨"No such file or directory (os error 2)", rfl⟩)⟩

/-- C9: on the Unix variant, when neither `XDG_RUNTIME_DIR` nor `TMPDIR`
is set, `connect()` panics on the `.unwrap()` of the environment lookup;
it does not return any error value (in particular not
`ConnectionNotFound`), whatever the filesystem looks like. -/
theorem c9_env_unset_panics (fs : UnixFs) :
    unix_connect none none fs = .panicked ∧
    ∀ (r : Except Err Nat) (t : List Nat),
      unix_connect none none fs ≠ .returns r t :=
  ⟨rfl, fun _ _ h => UnixConnect.noConfusion h⟩

/-- C1 (amended): for every opcode and every byte payload whose length
fits the 32-bit length field, decoding the bytes produced by encoding
`(opcode, payload)` consumes the whole frame and yields exactly the
payload back; the opcode bytes are read but discarded by the reader, so
the decoded result is the payload alone, not the pair. -/
theorem c1_round_trip (opcode : Nat) (payload : List Nat)
    (h : payload.length < 2 ^ 32) :
    read_ipc (write_ipc opcode payload) = .ok (payload, []) :=
  read_write_round opcode payload h

/-- C1 witness: the round trip at a nonempty and at an empty payload. -/
theorem c1_round_trip_witness :
    read_ipc (write_ipc 1 [104, 105]) = .ok ([104, 105], []) ∧
    read_ipc (write_ipc 0 []) = .ok ([], []) :=
  ⟨c1_round_trip 1 [104, 105] (by norm_num),
   c1_round_trip 0 [] (by norm_num)⟩

/-- C1 counterexample: decoding does not yield the pair `(opcode,
payload)` back. First, frames encoded with distinct opcodes (0 and 2)
decode to identical results, so the decoded value cannot determine the
opcode. Second, a payload of length `2^32` does not round-trip at all:
the truncated length header makes the reader return the empty payload. -/
theorem c1_counterexample :
    read_ipc (write_ipc 0 [123]) = read_ipc (write_ipc 2 [123]) ∧
    read_ipc (write_ipc 0 (List.replicate (2 ^ 32) 65)) ≠
      .ok (List.replicate (2 ^ 32) 65, []) := by
  have key : ∀ big : List Nat, big.length = 2 ^ 32 →
      read_ipc (write_ipc 0 big) = .ok ([], big) := by
    intro big hlen
    unfold write_ipc read_ipc
    rw [hlen, List.append_assoc, readExact_four]
    simp only
    rw [readExact_four]
    simp only [fromLE32_toLE32, Nat.mod_self]
    have h0 : readExact 0 big = .ok ([], big) := by
      simp [readExact]
    rw [h0]
  constructor
  · rfl
  · rw [key (List.replicate (2 ^ 32) 65) (List.length_replicate _ _)]
    intro hcontra
    injection hcontra with h'
    have h2 := congrArg List.length (congrArg Prod.fst h')
    simp only [List.length_replicate, List.length_nil] at h2
    norm_num at h2

/-- C4: evidence of the silent truncation. `write_ipc` computes the
length header with the truncating cast `payload_bytes.len() as u32` and
has no failure path: a `2^32`-byte payload is encoded with a length
header of 0 while all `2^32` payload bytes are written, so the 4-byte
little-endian length header does not equal the number of payload bytes
written, and no error is returned. -/
theorem c4_truncation_bug :
    write_ipc 1 (List.replicate (2 ^ 32) 65) =
      toLE32 1 ++ toLE32 0 ++ List.replicate (2 ^ 32) 65 ∧
    (List.replicate (2 ^ 32) (65 : Nat)).length = 2 ^ 32 ∧
    fromLE32 (toLE32 0) = 0 := by
  have key : ∀ big : List Nat, big.length = 2 ^ 32 →
      write_ipc 1 big = toLE32 1 ++ toLE32 0 ++ big := by
    intro big hlen
    unfold write_ipc
    rw [hlen]
    norm_num [toLE32]
  exact ⟨key _ (List.length_replicate _ _), List.length_replicate _ _, rfl⟩

/-- C2: for every frame read during the handshake, acceptance holds iff
the parsed JSON has string field `cmd = "DISPATCH"` and string field
`evt = "READY"`; any other parsed content fails with `handshakeFailed`, a
parse failure fails with the serialization (`json`) kind, and a read
failure propagates - and every `read_ipc` failure is of the I/O kind. -/
theorem c2_handshake (parse : List Nat → Except String Json)
    (s payload rest : List Nat) :
    (∀ v, read_ipc s = .ok (payload, rest) → parse payload = .ok v →
      ((handshake_read parse s = .ok ()) ↔
        ((jGet v "cmd").asStr = some "DISPATCH" ∧
         (jGet v "evt").asStr = some "READY")) ∧
      (¬((jGet v "cmd").asStr = some "DISPATCH" ∧
         (jGet v "evt").asStr = some "READY") →
        handshake_read parse s = .error .handshakeFailed)) ∧
    (∀ m, read_ipc s = .ok (payload, rest) → parse payload = .error m →
      handshake_read parse s = .error (.json m)) ∧
    (∀ e, read_ipc s = .error e → handshake_read parse s = .error e) ∧
    (∀ e, read_ipc s = .error e → ∃ m, e = .io m) := by
  refine ⟨?_, ?_, ?_, ?_⟩
  · intro v hr hp
    constructor
    · unfold handshake_read
      rw [hr]
      dsimp only
      rw [hp]
      dsimp only
      by_cases hacc : handshakeAccepts v = true
      · simp [hacc, ((handshakeAccepts_iff v).mp hacc).1,
          ((handshakeAccepts_iff v).mp hacc).2]
      · rw [if_neg hacc]
        constructor
        · intro hcontra
          exact Except.noConfusion hcontra
        · intro hc
          exact absurd ((handshakeAccepts_iff v).mpr hc) hacc
    · intro hnot
      unfold handshake_read
      rw [hr]
      dsimp only
      rw [hp]
      dsimp only
      have hacc : handshakeAccepts v = false := by
        rcases Bool.eq_false_or_eq_true (handshakeAccepts v) with h | h
        · exact absurd ((handshakeAccepts_iff v).mp h) hnot
        · exact h
      simp [hacc]
  · intro m hr hp
    unfold handshake_read
    rw [hr]
    dsimp only
    rw [hp]
  · intro e hr
    unfold handshake_read
    rw [hr]
  · intro e hr
    exact ⟨"failed to fill whole buffer", read_ipc_error_io s e hr⟩

/-- C2 witness: the three test cases of the spec, run over a concrete
opcode-0 empty-payload frame: a `{"cmd":"DISPATCH","evt":"READY"}`
response succeeds, a `{"cmd":"DISPATCH","evt":"ERROR"}` response fails
with `handshakeFailed`, and a parse failure fails with the `json` kind. -/
theorem c2_handshake_witness :
    handshake_read
      (fun _ => .ok (.obj [("cmd", .str "DISPATCH"), ("evt", .str "READY")]))
      (write_ipc 0 []) = .ok () ∧
    handshake_read
      (fun _ => .ok (.obj [("cmd", .str "DISPATCH"), ("evt", .str "ERROR")]))
      (write_ipc 0 []) = .error .handshakeFailed ∧
    handshake_read (fun _ => .error "expected value at line 1 column 1")
      (write_ipc 0 []) = .error (.json "expected value at line 1 column 1") := by
  refine ⟨?_, ?_, ?_⟩
  · exact ((c2_handshake
      (fun _ => .ok (.obj [("cmd", .str "DISPATCH"), ("evt", .str "READY")]))
      (write_ipc 0 []) [] []).1
      (.obj [("cmd", .str "DISPATCH"), ("evt", .str "READY")]) rfl rfl).1.mpr
      ⟨rfl, rfl⟩
  · exact ((c2_handshake
      (fun _ => .ok (.obj [("cmd", .str "DISPATCH"), ("evt", .str "ERROR")]))
      (write_ipc 0 []) [] []).1
      (.obj [("cmd", .str "DISPATCH"), ("evt", .str "ERROR")]) rfl rfl).2
      (by decide)
  · exact (c2_handshake (fun _ => .error "expected value at line 1 column 1")
      (write_ipc 0 []) [] []).2.1 "expected value at line 1 column 1" rfl rfl

/-- C3 (amended): `close` writes a Close frame (opcode 2) with an empty
payload and returns `Ok`; but the `Client` records no closed state, so
after `close` returns, further operations are still accepted rather than
failing: a post-close `set_activity` or `close` writes another frame to
the transport and returns `Ok`. -/
theorem c3_close_no_guard (c : ClientM) (pid : Nat) (activity : Json)
    (nonce : String) :
    close c = (.ok (), { c with sent := c.sent ++ [(2, .str "")] }) ∧
    set_activity (close c).2 pid activity nonce =
      (.ok (), { c with sent := c.sent ++ [(2, .str "")] ++
        [(1, .json (setActivityPayload pid activity nonce))] }) ∧
    close (close c).2 =
      (.ok (), { c with sent := c.sent ++ [(2, .str "")] ++ [(2, .str "")] }) :=
  ⟨rfl, rfl, rfl⟩

/-- C3 counterexample: on a concrete session, operations after `close`
returns are silently accepted - they return `Ok` and write frames -
contradicting "every further operation on the same Session fails
deterministically rather than being silently accepted". -/
theorem c3_counterexample :
    (set_activity (close ⟨"abc", [], []⟩).2 7 .null "nonce-1").1 = .ok () ∧
    (set_activity (close ⟨"abc", [], []⟩).2 7 .null "nonce-1").2.sent =
      [(2, .str ""), (1, .json (setActivityPayload 7 .null "nonce-1"))] ∧
    (close (close ⟨"abc", [], []⟩).2).1 = .ok () :=
  ⟨rfl, rfl, rfl⟩

/-- C8: `set_activity` with process id `pid` writes exactly one frame,
with the message opcode 1, whose JSON body has `cmd = "SET_ACTIVITY"`,
`args.pid = pid`, and the freshly generated nonce as its `nonce` field;
it reads nothing from the transport. Two successive calls whose generated
nonces are distinct and non-empty (as `Uuid::new_v4().to_string()`
produces) carry distinct non-empty `nonce` fields. -/
theorem c8_set_activity (c : ClientM) (pid : Nat) (activity activity2 : Json)
    (n1 n2 : String) (h1 : n1 ≠ "") (hne : n1 ≠ n2) :
    (set_activity c pid activity n1).1 = .ok () ∧
    (set_activity c pid activity n1).2.sent =
      c.sent ++ [(1, .json (setActivityPayload pid activity n1))] ∧
    (set_activity c pid activity n1).2.recv = c.recv ∧
    jGet (setActivityPayload pid activity n1) "cmd" = .str "SET_ACTIVITY" ∧
    jGet (jGet (setActivityPayload pid activity n1) "args") "pid" =
      .num (Int.ofNat pid) ∧
    jGet (setActivityPayload pid activity n1) "nonce" = .str n1 ∧
    n1 ≠ "" ∧
    jGet (setActivityPayload pid activity n1) "nonce" ≠
      jGet (setActivityPayload pid activity2 n2) "nonce" := by
  refine ⟨rfl, rfl, rfl, rfl, rfl, rfl, h1, ?_⟩
  intro hcontra
  have h' : Json.str n1 = Json.str n2 := hcontra
  injection h' with h''
  exact hne h''

/-- C8 witness: a concrete pair of successive calls with distinct
generated nonces. -/
theorem c8_set_activity_witness :
    (set_activity ⟨"abc", [], []⟩ 7 .null "uuid-a").1 = .ok () ∧
    jGet (setActivityPayload 7 .null "uuid-a") "nonce" ≠
      jGet (setActivityPayload 7 .null "uuid-b") "nonce" := by
  have h := c8_set_activity ⟨"abc", [], []⟩ 7 .null .null "uuid-a" "uuid-b"
    (by decide) (by decide)
  exact ⟨h.1, h.2.2.2.2.2.2.2⟩

/-- C10: the reader discards the opcode of every received frame, so
handshake acceptance depends only on the JSON payload: a frame carrying
any opcode whatsoever - including Close (2) - whose payload parses to a
value with `cmd = "DISPATCH"` and `evt = "READY"` makes the handshake
succeed, and the decoded result of a frame does not depend on its
opcode. -/
theorem c10_opcode_discarded (opcode : Nat) (p : List Nat)
    (parse : List Nat → Except String Json) (v : Json)
    (hlen : p.length < 2 ^ 32) (hp : parse p = .ok v)
    (hcmd : (jGet v "cmd").asStr = some "DISPATCH")
    (hevt : (jGet v "evt").asStr = some "READY") :
    handshake_read parse (write_ipc opcode p) = .ok () ∧
    read_ipc (write_ipc opcode p) = read_ipc (write_ipc 0 p) := by
  have hacc : handshakeAccepts v = true := by
    simp [handshakeAccepts, hcmd, hevt]
  constructor
  · unfold handshake_read
    rw [read_write_round opcode p hlen]
    simp only
    rw [hp]
    simp [hacc]
  · rw [read_write_round opcode p hlen, read_write_round 0 p hlen]

/-- C10 witness: a frame with the Close opcode (2) whose payload parses
to the ready response makes the handshake succeed. -/
theorem c10_opcode_discarded_witness :
    handshake_read
      (fun _ => .ok (.obj [("cmd", .str "DISPATCH"), ("evt", .str "READY")]))
      (write_ipc 2 [123]) = .ok () :=
  (c10_opcode_discarded 2 [123]
    (fun _ => .ok (.obj [("cmd", .str "DISPATCH"), ("evt", .str "READY")]))
    (.obj [("cmd", .str "DISPATCH"), ("evt", .str "READY")])
    (by norm_num) rfl rfl rfl).1

end DiscordPresence
